import Mathlib

/-!
Verification of the planning subsystem of the nanocoder repository.

The development shallowly embeds the planning workflow engine
(`src/source/planning/types.ts`, the planning manager, the plan-file
persistence layer and the question manager) into Lean:

* pure TypeScript functions become Lean functions;
* class methods that mutate private state become explicit state-passing
  functions `state → result × state` (or `state → Except String state`
  for methods that may throw; a JavaScript `throw` before any mutation
  leaves the object unchanged, which the `Except.error` branch models);
* `Date` values are modelled by their epoch-millisecond timestamp as an
  `Int`; `new Date()` calls become explicit `now : Int` parameters;
* `randomUUID()` / `randomBytes(6).toString('hex')` results become
  explicit string parameters (the embedding is parametric in the
  randomness);
* event-emitter notifications (`emit`) have no effect on the manager
  state and are not modelled;
* the file system becomes a store `String → Option FileContent` mapping
  absolute paths to contents.
-/

/-! ## String helpers (JavaScript string primitives used by the source) -/

/-- `needle.isPrefixOf hay` on character lists, written out so that every
concrete instance reduces in the kernel. -/
def charsStartWith : List Char → List Char → Bool
  | [], _ => true
  | _ :: _, [] => false
  | a :: as, b :: bs => a == b && charsStartWith as bs

/-- JavaScript `hay.includes(needle)` (substring containment). -/
def charsContain (hay needle : List Char) : Bool :=
  match hay with
  | [] => needle.isEmpty
  | _ :: t => charsStartWith needle hay || charsContain t needle

/-- JavaScript `s.includes(kw)`. -/
def strIncludes (s kw : String) : Bool :=
  charsContain s.data kw.data

/-- JavaScript `s.startsWith(p)`. -/
def strStartsWith (s p : String) : Bool :=
  charsStartWith p.data s.data

/-- JavaScript `s.toLowerCase()`.  The source only ever lowercases before
matching ASCII keywords, where `Char.toLower` agrees with JavaScript. -/
def toLowerString (s : String) : String :=
  String.mk (s.data.map Char.toLower)

/-! ## `src/source/planning/types.ts` -/

/-- The five phases of the planning workflow. -/
inductive PlanningPhase
  | initial_understanding
  | design
  | review
  | final_plan
  | exit
deriving DecidableEq, BEq, Repr

/-- Planning phase order for transitions (`PLANNING_PHASE_ORDER`). -/
def PLANNING_PHASE_ORDER : List PlanningPhase :=
  [.initial_understanding, .design, .review, .final_plan, .exit]

/-- Tools allowed in each phase (`PHASE_ALLOWED_TOOLS`); an empty list
means no tools allowed. -/
def PHASE_ALLOWED_TOOLS : PlanningPhase → List String
  | .initial_understanding =>
      ["read_file", "find_files", "search_file_contents", "list_directory"]
  | .design =>
      ["read_file", "find_files", "search_file_contents", "list_directory",
       "write_plan_file"]
  | .review =>
      ["read_file", "find_files", "search_file_contents", "list_directory"]
  | .final_plan =>
      ["read_file", "find_files", "search_file_contents", "list_directory"]
  | .exit => []

/-- Progress tracking for a single phase (`PhaseProgress`). -/
structure PhaseProgress where
  completed : Bool
  steps : List String
  notes : Option String
deriving DecidableEq, Repr

/-- The `Record<PlanningPhase, PhaseProgress>` map, with one field per
phase as in the source object literal. -/
structure PhaseProgressMap where
  initial_understanding : PhaseProgress
  design : PhaseProgress
  review : PhaseProgress
  final_plan : PhaseProgress
  exit : PhaseProgress
deriving DecidableEq, Repr

/-- Index a `PhaseProgressMap` by phase (JS `phaseProgress[phase]`). -/
def PhaseProgressMap.get (m : PhaseProgressMap) : PlanningPhase → PhaseProgress
  | .initial_understanding => m.initial_understanding
  | .design => m.design
  | .review => m.review
  | .final_plan => m.final_plan
  | .exit => m.exit

/-- Update a `PhaseProgressMap` at a phase (JS `phaseProgress[phase] = v`). -/
def PhaseProgressMap.set (m : PhaseProgressMap) (p : PlanningPhase)
    (v : PhaseProgress) : PhaseProgressMap :=
  match p with
  | .initial_understanding => { m with initial_understanding := v }
  | .design => { m with design := v }
  | .review => { m with review := v }
  | .final_plan => { m with final_plan := v }
  | .exit => { m with exit := v }

/-- A clarification value has TypeScript type `unknown` and is only ever
stored and serialized, never inspected; it is modelled by its JSON
serialization. -/
abbrev JsonValue := String

/-- Plan file metadata (`PlanFile`, stored as `.plan.json`).  `Date`
fields are epoch-millisecond timestamps. -/
structure PlanFile where
  id : String
  slug : String
  createdAt : Int
  updatedAt : Int
  phase : PlanningPhase
  userRequest : String
  clarifications : List (String × JsonValue)
  implementationPlan : String
  filesToModify : List String
  verificationSteps : List String
deriving DecidableEq, Repr

/-- Main planning state structure (`PlanningState`). -/
structure PlanningState where
  currentPhase : PlanningPhase
  planFile : Option PlanFile
  phaseProgress : PhaseProgressMap
  enabled : Bool
deriving DecidableEq, Repr

/-- `createInitialPlanningState()`. -/
def createInitialPlanningState : PlanningState where
  currentPhase := .initial_understanding
  planFile := none
  enabled := false
  phaseProgress :=
    { initial_understanding := { completed := false, steps := [], notes := none }
      design := { completed := false, steps := [], notes := none }
      review := { completed := false, steps := [], notes := none }
      final_plan := { completed := false, steps := [], notes := none }
      exit := { completed := false, steps := [], notes := none } }

/-- `isToolAllowedInPhase(toolName, phase)`. -/
def isToolAllowedInPhase (toolName : String) (phase : PlanningPhase) : Bool :=
  (PHASE_ALLOWED_TOOLS phase).contains toolName

/-- `getNextPhase(currentPhase)`.  The JS `indexOf === -1` branch cannot
fire (every phase is in the order list); a missing element would make
`List.indexOf` return the length, and the out-of-bounds `get?` below
yields `none` just as the JS branch does. -/
def getNextPhase (currentPhase : PlanningPhase) : Option PlanningPhase :=
  let currentIndex := PLANNING_PHASE_ORDER.indexOf currentPhase
  if currentIndex = PLANNING_PHASE_ORDER.length - 1 then none
  else PLANNING_PHASE_ORDER.get? (currentIndex + 1)

/-- `canTransitionToPhase(from, to)`: only one step forward. -/
def canTransitionToPhase (fromPhase toPhase : PlanningPhase) : Bool :=
  let fromIndex := PLANNING_PHASE_ORDER.indexOf fromPhase
  let toIndex := PLANNING_PHASE_ORDER.indexOf toPhase
  toIndex == fromIndex + 1

/-! ## `PlanningManager` (state machine, `planning-manager.ts`)

Each method becomes a function from the manager's `PlanningState` (plus
explicit `now`/randomness parameters) to its result and the new state. -/

/-- `PlanningManager.enable()`. -/
def PlanningManager.enable (s : PlanningState) : PlanningState :=
  if s.enabled then s
  else { s with enabled := true, currentPhase := .initial_understanding }

/-- `PlanningManager.disable()`. -/
def PlanningManager.disable (s : PlanningState) : PlanningState :=
  if !s.enabled then s else createInitialPlanningState

/-- `PlanningManager.transitionToNextPhase()`: returns the boolean result
together with the state after the call. -/
def transitionToNextPhase (now : Int) (s : PlanningState) :
    Bool × PlanningState :=
  if !s.enabled then (false, s)
  else
    -- Mark current phase as completed
    let markedProgress := s.phaseProgress.set s.currentPhase
      ({ s.phaseProgress.get s.currentPhase with completed := true })
    let s₁ := { s with phaseProgress := markedProgress }
    -- Get next phase
    match getNextPhase s.currentPhase with
    | none => (false, s₁)
    | some nextPhase =>
      -- Update phase
      let s₂ := { s₁ with currentPhase := nextPhase }
      -- Update plan file phase if exists
      match s₂.planFile with
      | some pf =>
          let pf' := { pf with phase := nextPhase, updatedAt := now }
          (true, { s₂ with planFile := some pf' })
      | none => (true, s₂)

/-- `PlanningManager.isToolAllowed(toolName)`. -/
def PlanningManager.isToolAllowed (toolName : String) (s : PlanningState) :
    Bool :=
  if !s.enabled then true -- All tools allowed when planning is disabled
  else isToolAllowedInPhase toolName s.currentPhase

/-- `PlanningManager.getAllowedTools()`. -/
def PlanningManager.getAllowedTools (s : PlanningState) : List String :=
  if !s.enabled then [] -- No restriction when planning is disabled
  else PHASE_ALLOWED_TOOLS s.currentPhase

/-- `PlanningManager.createPlanFile(userRequest)`.  `uuid` is the
`randomUUID()` result and `slug` the `randomBytes(6).toString('hex')`
result from `#generateSlug()`. -/
def PlanningManager.createPlanFile (uuid slug : String) (now : Int)
    (userRequest : String) (s : PlanningState) : PlanFile × PlanningState :=
  let planFile : PlanFile :=
    { id := uuid
      slug := slug
      createdAt := now
      updatedAt := now
      phase := s.currentPhase
      userRequest := userRequest
      clarifications := []
      implementationPlan := ""
      filesToModify := []
      verificationSteps := [] }
  (planFile, { s with planFile := some planFile })

/-- The argument type of `PlanningManager.updatePlanFile`:
`Partial<Omit<PlanFile, 'id' | 'slug' | 'createdAt'>>` — one optional
field per updatable key. -/
structure PlanFileUpdates where
  updatedAt : Option Int
  phase : Option PlanningPhase
  userRequest : Option String
  clarifications : Option (List (String × JsonValue))
  implementationPlan : Option String
  filesToModify : Option (List String)
  verificationSteps : Option (List String)
deriving DecidableEq, Repr

/-- `PlanningManager.updatePlanFile(updates)`: the spread
`{...planFile, ...updates, updatedAt: new Date()}` — fields present in
`updates` override, and `updatedAt` is always stamped last. -/
def updatePlanFile (now : Int) (updates : PlanFileUpdates)
    (s : PlanningState) : PlanningState :=
  match s.planFile with
  | none => s
  | some pf =>
    let pf' : PlanFile :=
      { id := pf.id
        slug := pf.slug
        createdAt := pf.createdAt
        phase := updates.phase.getD pf.phase
        userRequest := updates.userRequest.getD pf.userRequest
        clarifications := updates.clarifications.getD pf.clarifications
        implementationPlan :=
          updates.implementationPlan.getD pf.implementationPlan
        filesToModify := updates.filesToModify.getD pf.filesToModify
        verificationSteps :=
          updates.verificationSteps.getD pf.verificationSteps
        updatedAt := now }
    { s with planFile := some pf' }

/-! ## Plan file persistence (`plan-file.ts`)

The file system is modelled as a store from absolute paths to file
contents.  `JSON.stringify(planFile, null, 2)` is injective on plan
records and `JSON.parse` recovers the record (with the two `Date` fields
serialized as ISO strings that round-trip to the same timestamp for
every representable date), so a stored JSON sidecar is modelled by the
structured record it parses to, and `FileContent.text` models any other
content: markdown, or a corrupt sidecar on which parsing throws. -/

/-- Content of one stored file. -/
inductive FileContent where
  /-- A JSON document that parses back to the plan record `p`. -/
  | planJson (p : PlanFile)
  /-- Any other text: markdown, or content on which `JSON.parse` throws. -/
  | text (s : String)
deriving DecidableEq, Repr

/-- The file system: absolute path to content, `none` when absent. -/
abbrev FileStore := String → Option FileContent

/-- `writeFile(path, content)`. -/
def writeFileStore (fs : FileStore) (path : String) (c : FileContent) :
    FileStore :=
  fun q => if q = path then some c else fs q

/-- `PLAN_DIR`. -/
def PLAN_DIR : String := ".nanocoder/plans"

/-- `PLAN_MD_EXT`. -/
def PLAN_MD_EXT : String := ".plan.md"

/-- `PLAN_JSON_EXT`. -/
def PLAN_JSON_EXT : String := ".plan.json"

/-- Node `path.join` for the two-segment POSIX shapes used here. -/
def joinPath (a b : String) : String := a ++ "/" ++ b

/-- `getPlanDirectory(cwd)`. -/
def getPlanDirectory (cwd : String) : String := joinPath cwd PLAN_DIR

/-- `getPlanMdPath(cwd, slug)`. -/
def getPlanMdPath (cwd slug : String) : String :=
  joinPath (getPlanDirectory cwd) (slug ++ PLAN_MD_EXT)

/-- `getPlanJsonPath(cwd, slug)`. -/
def getPlanJsonPath (cwd slug : String) : String :=
  joinPath (getPlanDirectory cwd) (slug ++ PLAN_JSON_EXT)

/-- The `replace(/\\/g, '/')` normalization from
`isValidProjectDirectory`. -/
def normalizePath (s : String) : String :=
  String.mk (s.data.map fun c => if c = '\\' then '/' else c)

/-- `isValidProjectDirectory(cwd)`: not the home directory and not a
subdirectory of it.  `home` is the ambient `homedir()` value, made an
explicit parameter. -/
def isValidProjectDirectory (home cwd : String) : Bool :=
  let normalizedCwd := normalizePath cwd
  let normalizedHome := normalizePath home
  -- Cannot be home directory itself
  if normalizedCwd == normalizedHome then false
  -- Cannot be a subdirectory of home
  else if strStartsWith normalizedCwd (normalizedHome ++ "/") then false
  else true

/-- `ensurePlanDirectory(cwd)`: the validity check, then a recursive
`mkdir` (directory creation is not tracked by the file store). -/
def ensurePlanDirectory (home cwd : String) : Except String Unit :=
  if !isValidProjectDirectory home cwd then
    Except.error
      "Plan files can only be created in project directories, not in home directory"
  else Except.ok ()

/-- `${planFile.phase}` renders the phase as its literal string. -/
def PlanningPhase.toStr : PlanningPhase → String
  | .initial_understanding => "initial_understanding"
  | .design => "design"
  | .review => "review"
  | .final_plan => "final_plan"
  | .exit => "exit"

/-- Models `Date.prototype.toISOString` by an injective rendering of the
timestamp.  The exact ISO-8601 text never matters: the markdown that
embeds it is write-only (never parsed back). -/
def toISOString (t : Int) : String := "@" ++ toString t

/-- JavaScript `s || fallback` for strings: the empty string is falsy. -/
def strOrElse (s fallback : String) : String := if s = "" then fallback else s

/-- `generatePlanMarkdown(planFile)`.  A clarification value of type
`unknown` is modelled by its JSON serialization, so the source's
`JSON.stringify(value)` is the value itself. -/
def generatePlanMarkdown (planFile : PlanFile) : String :=
  let clarifications := String.intercalate "\n"
    (planFile.clarifications.map fun kv => "**" ++ kv.1 ++ "**: " ++ kv.2)
  let filesList := String.intercalate "\n"
    (planFile.filesToModify.map fun file => "- `" ++ file ++ "`")
  let verificationSteps := String.intercalate "\n"
    (planFile.verificationSteps.mapIdx fun i step =>
      toString (i + 1) ++ ". " ++ step)
  "# Plan: " ++ planFile.slug ++ "\n\n" ++
  "**Created:** " ++ toISOString planFile.createdAt ++ "\n" ++
  "**Updated:** " ++ toISOString planFile.updatedAt ++ "\n" ++
  "**Phase:** " ++ planFile.phase.toStr ++ "\n\n" ++
  "## User Request\n" ++ planFile.userRequest ++ "\n\n" ++
  "## Clarifications\n" ++ strOrElse clarifications "None" ++ "\n\n" ++
  "## Implementation Plan\n" ++
  strOrElse planFile.implementationPlan "To be determined..." ++ "\n\n" ++
  "## Files to Modify\n" ++
  strOrElse filesList "None identified yet" ++ "\n\n" ++
  "## Verification\n" ++
  strOrElse verificationSteps "To be determined..." ++ "\n"

/-- `savePlanFile(cwd, planFile, markdownContent?)`: validity check via
`ensurePlanDirectory`, then write markdown, then write the JSON sidecar.
The JS `markdownContent || generatePlanMarkdown(planFile)` treats an
empty supplied string as falsy. -/
def savePlanFile (home : String) (fs : FileStore) (cwd : String)
    (planFile : PlanFile) (markdownContent : Option String) :
    Except String FileStore :=
  match ensurePlanDirectory home cwd with
  | Except.error e => Except.error e
  | Except.ok _ =>
    let mdPath := getPlanMdPath cwd planFile.slug
    let jsonPath := getPlanJsonPath cwd planFile.slug
    -- Save markdown content
    let content := strOrElse (markdownContent.getD "")
      (generatePlanMarkdown planFile)
    let fs₁ := writeFileStore fs mdPath (FileContent.text content)
    -- Save JSON metadata
    let fs₂ := writeFileStore fs₁ jsonPath (FileContent.planJson planFile)
    Except.ok fs₂

/-- `loadPlanFile(cwd, slug)`: the whole body sits in a
`try ... catch { return null }`, so a missing file (read rejects) and a
corrupt file (parse throws) both produce `null`. -/
def loadPlanFile (fs : FileStore) (cwd slug : String) : Option PlanFile :=
  match fs (getPlanJsonPath cwd slug) with
  | none => none
  | some (FileContent.text _) => none
  | some (FileContent.planJson data) =>
    -- Convert date strings back to Date objects
    some { data with createdAt := data.createdAt, updatedAt := data.updatedAt }

/-- `PlanManager.createPlan(userRequest)`: directory validity check,
then build the record with `id = slug` and save it.  `slug` is the
`#generateSlug()` result, `home`/`now` the ambient homedir and clock. -/
def PlanManager.createPlan (home cwd slug : String) (now : Int)
    (userRequest : String) (fs : FileStore) :
    Except String (PlanFile × FileStore) :=
  -- Validate directory
  if !isValidProjectDirectory home cwd then
    Except.error
      "Plan files can only be created in project directories, not in home directory"
  else
    let planFile : PlanFile :=
      { id := slug
        slug := slug
        userRequest := userRequest
        phase := .initial_understanding
        clarifications := []
        implementationPlan := ""
        filesToModify := []
        verificationSteps := []
        createdAt := now
        updatedAt := now }
    -- Save the new plan file
    match savePlanFile home fs cwd planFile none with
    | Except.error e => Except.error e
    | Except.ok fs' => Except.ok (planFile, fs')

/-! ## Question system (`planning/questions/types.ts`) -/

/-- Types of questions the AI can ask (`QuestionType`). -/
inductive QuestionType
  | ambiguity
  | decision
  | confirmation
deriving DecidableEq, BEq, Repr

/-- A selectable option for a question (`QuestionOption`). -/
structure QuestionOption where
  id : String
  text : String
  description : Option String
  pros : Option (List String)
  cons : Option (List String)
  followupQuestions : Option (List String)
deriving DecidableEq, Repr

/-- A question option carrying only `id`, `text` and `description`. -/
def basicOption (id text description : String) : QuestionOption :=
  { id := id, text := text, description := some description,
    pros := none, cons := none, followupQuestions := none }

/-- A question option also carrying `pros` and `cons`. -/
def prosConsOption (id text description : String)
    (pros cons : List String) : QuestionOption :=
  { id := id, text := text, description := some description,
    pros := some pros, cons := some cons, followupQuestions := none }

/-- A single question that can be asked to the user (`Question`). -/
structure Question where
  id : String
  type : QuestionType
  template : String
  options : Option (List QuestionOption)
  followupQuestions : Option (List String)
  allowSkip : Option Bool
  allowMultiple : Option Bool
deriving DecidableEq, Repr

/-- The answer to a question (`QuestionAnswer`). -/
structure QuestionAnswer where
  questionId : String
  selectedOptionIds : List String
  customText : Option String
  timestamp : Int
deriving DecidableEq, Repr

/-- State of the question system (`QuestionState`).  The
`Map<string, QuestionAnswer>` is an insertion-ordered association
list. -/
structure QuestionState where
  questionQueue : List Question
  currentQuestion : Option Question
  answeredQuestions : List (String × QuestionAnswer)
  completed : Bool
deriving DecidableEq, Repr

/-- `Map.prototype.set`: overwrite in place when the key exists,
otherwise append. -/
def mapSet {α : Type} (m : List (String × α)) (k : String) (v : α) :
    List (String × α) :=
  if m.any fun p => p.1 == k then
    m.map fun p => if p.1 == k then (k, v) else p
  else m ++ [(k, v)]

/-- Template for ambiguity resolution questions (`AmbiguityTemplate`). -/
structure AmbiguityTemplate where
  id : String
  keywords : List String
  template : String → String
  options : List QuestionOption
  allowSkip : Option Bool

/-- Template for decision point questions (`DecisionTemplate`). -/
structure DecisionTemplate where
  id : String
  keywords : List String
  template : String → String
  options : List QuestionOption
  allowMultiple : Bool

/-- Template for assumption confirmation questions
(`ConfirmationTemplate`); the argument is the entry list of the
`Record<string, unknown>` of assumptions (values modelled by raw
strings, as at the single call site). -/
structure ConfirmationTemplate where
  id : String
  triggers : List String
  template : List (String × String) → String
  confirmLabel : String
  modifyLabel : String

/-- `JSON.stringify` of a string value (quote and escape). -/
def jsonStringify (s : String) : String :=
  let esc := fun (c : Char) (acc : List Char) =>
    if c = '"' then '\\' :: '"' :: acc
    else if c = '\\' then '\\' :: '\\' :: acc
    else if c = '\n' then '\\' :: 'n' :: acc
    else if c = '\t' then '\\' :: 't' :: acc
    else if c = '\r' then '\\' :: 'r' :: acc
    else c :: acc
  "\"" ++ String.mk (s.data.foldr esc []) ++ "\""

/-- Default question system configuration
(`DEFAULT_QUESTION_CONFIG`); `confidenceThreshold` is floating-point
and never read by any embedded operation, so it is not modelled. -/
structure QuestionConfig where
  maxQuestions : Nat
  allowSkip : Bool
deriving DecidableEq, Repr

/-- The default configuration. -/
def DEFAULT_QUESTION_CONFIG : QuestionConfig :=
  { maxQuestions := 10, allowSkip := true }

/-- `AMBIGUITY_TEMPLATES` (predefined ambiguity question catalog). -/
def AMBIGUITY_TEMPLATES : List AmbiguityTemplate :=
  [ { id := "performance-requirements"
      keywords := ["optimize", "performance", "fast", "efficient"]
      template := fun _context =>
        "When you say \"optimize performance\", I need to understand your priorities better.\n\n" ++
        "Which metrics are most important?\n" ++
        "[1] Response time / latency\n" ++
        "[2] Memory usage\n" ++
        "[3] CPU utilization\n" ++
        "[4] Database query performance\n" ++
        "[5] Network bandwidth\n\n" ++
        "What\x27s your target improvement?\n" ++
        "[1] 2x faster\n" ++
        "[2] 50% memory reduction\n" ++
        "[3] Handle 10x more users\n" ++
        "[4] Other specific target"
      options :=
        [ basicOption "response-time" "Response time" "Focus on latency and speed",
          basicOption "memory" "Memory usage" "Focus on memory efficiency",
          basicOption "cpu" "CPU utilization" "Focus on CPU efficiency",
          basicOption "database" "Database performance" "Focus on query optimization" ]
      allowSkip := some true },
    { id := "error-handling"
      keywords := ["error handling", "robust", "reliable"]
      template := fun _context =>
        "How should we handle errors and failures?\n\n" ++
        "What\x27s your preferred approach?\n" ++
        "[1] Graceful degradation with fallbacks\n" ++
        "[2] Fail fast with detailed error messages\n" ++
        "[3] Retry mechanisms with exponential backoff\n" ++
        "[4] Circuit breaker pattern\n\n" ++
        "Should errors be:\n" ++
        "[1] Logged for debugging\n" ++
        "[2] Shown to users (sanitized)\n" ++
        "[3] Sent to monitoring service\n" ++
        "[4] All of the above"
      options :=
        [ basicOption "graceful" "Graceful degradation"
            "Continue operating with reduced functionality",
          basicOption "fail-fast" "Fail fast"
            "Stop immediately and show detailed errors",
          basicOption "retry" "Retry mechanisms"
            "Automatically retry failed operations",
          basicOption "circuit-breaker" "Circuit breaker"
            "Stop calling failing services" ]
      allowSkip := some true } ]

/-- `DECISION_TEMPLATES` (predefined decision question catalog). -/
def DECISION_TEMPLATES : List DecisionTemplate :=
  [ { id := "architecture-pattern"
      keywords := ["build", "create", "implement", "architecture", "structure"]
      template := fun _context =>
        "What architectural pattern would you prefer?\n\n" ++
        "[1] Monolithic - Single application with all components\n" ++
        "    Pros: Simple to develop, easier debugging, lower complexity\n" ++
        "    Cons: Harder to scale, tight coupling\n\n" ++
        "[2] Microservices - Separate services for different functions\n" ++
        "    Pros: Scalable, independent deployment, technology diversity\n" ++
        "    Cons: Network complexity, data consistency challenges\n\n" ++
        "[3] Modular Monolith - Single app with clear module boundaries\n" ++
        "    Pros: Balanced approach, future migration path\n" ++
        "    Cons: Still single deployment unit"
      options :=
        [ prosConsOption "monolithic" "Monolithic"
            "Simple, single-unit application"
            ["Simple to develop", "Easier debugging"] ["Harder to scale"],
          prosConsOption "microservices" "Microservices"
            "Distributed, independent services"
            ["Scalable", "Independent deployment"]
            ["Network complexity", "Data consistency"],
          prosConsOption "modular-monolith" "Modular Monolith"
            "Single app with module boundaries"
            ["Balanced approach", "Future migration path"]
            ["Single deployment unit"] ]
      allowMultiple := false },
    { id := "database-choice"
      keywords := ["database", "storage", "persistence", "data"]
      template := fun _context =>
        "What type of database would you prefer?\n\n" ++
        "[1] PostgreSQL - Relational database with strong consistency\n" ++
        "    Pros: ACID compliance, complex queries, data integrity\n" ++
        "    Cons: Vertical scaling, schema migrations\n\n" ++
        "[2] MongoDB - Document database with flexible schema\n" ++
        "    Pros: Schema flexibility, horizontal scaling, JSON native\n" ++
        "    Cons: Eventual consistency, no joins\n\n" ++
        "[3] SQLite - File-based relational database\n" ++
        "    Pros: Simple setup, zero configuration, portable\n" ++
        "    Cons: Single writer, limited scaling"
      options :=
        [ basicOption "postgresql" "PostgreSQL"
            "Strong consistency, complex queries",
          basicOption "mongodb" "MongoDB"
            "Flexible schema, horizontal scaling",
          basicOption "sqlite" "SQLite" "Simple, portable, embedded" ]
      allowMultiple := false },
    { id := "authentication-method"
      keywords := ["authentication", "login", "auth", "user", "security"]
      template := fun _context =>
        "What authentication approach should I implement?\n\n" ++
        "[1] JWT Tokens - Stateless tokens with digital signatures\n" ++
        "    Pros: Scalable, standard approach, no server state\n" ++
        "    Cons: Token management, cannot revoke easily\n\n" ++
        "[2] Session-based - Server-side session storage\n" ++
        "    Pros: Easy to revoke, secure, simple\n" ++
        "    Cons: Server memory usage, not scalable\n\n" ++
        "[3] OAuth2 Integration - Third-party authentication\n" ++
        "    Pros: No password management, social login, trusted\n" ++
        "    Cons: External dependency, complex setup"
      options :=
        [ basicOption "jwt" "JWT Tokens" "Stateless, scalable",
          basicOption "session" "Session-based"
            "Server-controlled, easy to revoke",
          basicOption "oauth2" "OAuth2" "Third-party authentication" ]
      allowMultiple := false } ]

/-- `CONFIRMATION_TEMPLATES` (the single confirmation template). -/
def CONFIRMATION_TEMPLATES : List ConfirmationTemplate :=
  [ { id := "assumptions-confirmation"
      triggers := ["create", "build", "implement"]
      template := fun assumptions =>
        let items := String.intercalate "\n"
          (assumptions.map fun kv => "- " ++ kv.1 ++ ": " ++ jsonStringify kv.2)
        "Before I start implementing, I want to confirm my understanding:\n\n" ++
        "Current Requirements:\n" ++ items ++
        "\n\nAre these assumptions correct? Should I proceed with this understanding?"
      confirmLabel := "Yes, proceed"
      modifyLabel := "No, let me clarify" } ]

/-! ## `QuestionManager` (`question-manager.ts`)

The manager's `#context` field is set but never read by any embedded
operation and is not modelled.  Each mutating method becomes a function
on `QuestionState`. -/

/-- The ambiguity-template block of `#findMatchingQuestions`: one
`Question` per catalog template whose keyword list matches the
lower-cased request, in catalog order. -/
def ambMatchedQuestions (userRequest : String) : List Question :=
  let lowerRequest := toLowerString userRequest
  (AMBIGUITY_TEMPLATES.filter fun t =>
      t.keywords.any fun kw => strIncludes lowerRequest kw).map fun t =>
    { id := t.id
      type := QuestionType.ambiguity
      template := t.template userRequest
      options := some t.options
      followupQuestions := none
      allowSkip := some true
      allowMultiple := none }

/-- The decision-template block of `#findMatchingQuestions`. -/
def decMatchedQuestions (userRequest : String) : List Question :=
  let lowerRequest := toLowerString userRequest
  (DECISION_TEMPLATES.filter fun t =>
      t.keywords.any fun kw => strIncludes lowerRequest kw).map fun t =>
    { id := t.id
      type := QuestionType.decision
      template := t.template userRequest
      options := some t.options
      followupQuestions := none
      allowSkip := some true
      allowMultiple := some t.allowMultiple }

/-- The confirmation block of `#findMatchingQuestions`: the
`assumptions-confirmation` question is appended when the request
contains a create/build/implement/add/develop keyword. -/
def confMatchedQuestions (userRequest : String) : List Question :=
  let lowerRequest := toLowerString userRequest
  let confirmKeywords := ["create", "build", "implement", "add", "develop"]
  if confirmKeywords.any fun kw => strIncludes lowerRequest kw then
    match CONFIRMATION_TEMPLATES.find? fun t =>
        t.id == "assumptions-confirmation" with
    | some confirmTemplate =>
      [ { id := confirmTemplate.id
          type := QuestionType.confirmation
          template := confirmTemplate.template
            [("request", userRequest), ("scope", "current task")]
          options := none
          followupQuestions := none
          allowSkip := some false
          allowMultiple := none } ]
    | none => []
  else []

/-- `QuestionManager.#findMatchingQuestions(userRequest)`: the three
blocks push into one array in this order. -/
def findMatchingQuestions (userRequest : String) : List Question :=
  ambMatchedQuestions userRequest ++ decMatchedQuestions userRequest ++
    confMatchedQuestions userRequest

/-- `QuestionManager.#getKeywordCount(questionId, userRequest)`. -/
def getKeywordCount (questionId userRequest : String) : Nat :=
  let lowerRequest := toLowerString userRequest
  -- Check ambiguity templates
  match AMBIGUITY_TEMPLATES.find? fun t => t.id == questionId with
  | some t => (t.keywords.filter fun kw => strIncludes lowerRequest kw).length
  | none =>
    -- Check decision templates
    match DECISION_TEMPLATES.find? fun t => t.id == questionId with
    | some t => (t.keywords.filter fun kw => strIncludes lowerRequest kw).length
    | none => 0

/-- The `#prioritizeQuestions` sort comparator
`(a, b) => bKeywords - aKeywords`: `a` sorts no later than `b` when its
keyword match count is at least `b`'s. -/
def countDescCmp (userRequest : String) (a b : Question) : Prop :=
  getKeywordCount b.id userRequest ≤ getKeywordCount a.id userRequest

instance (userRequest : String) : DecidableRel (countDescCmp userRequest) :=
  fun _ _ => Nat.decLe _ _

/-- `QuestionManager.#prioritizeQuestions(questions, userRequest)`:
confirmation first, then decisions, then ambiguities, the latter two
sorted descending by keyword match count.  `Array.prototype.sort` is
specified stable (ES2019), and a stable sort under the comparator is
exactly `List.insertionSort` with the non-strict descending
comparison. -/
def prioritizeQuestions (questions : List Question) (userRequest : String) :
    List Question :=
  let confirmationQuestions := questions.filter fun q =>
    q.type == QuestionType.confirmation
  let decisionQuestions := questions.filter fun q =>
    q.type == QuestionType.decision
  let ambiguityQuestions := questions.filter fun q =>
    q.type == QuestionType.ambiguity
  let sortDesc := fun (l : List Question) =>
    l.insertionSort (countDescCmp userRequest)
  confirmationQuestions ++ sortDesc decisionQuestions ++
    sortDesc ambiguityQuestions

/-- `QuestionManager.generateQuestions(userRequest, projectFiles)` with
the configured `maxQuestions` (default 10) explicit.  `projectFiles`
only seeds the unmodelled context. -/
def generateQuestions (maxQuestions : Nat) (userRequest : String)
    (_projectFiles : List String) (s : QuestionState) : QuestionState :=
  let matchedQuestions := findMatchingQuestions userRequest
  let prioritizedQuestions :=
    prioritizeQuestions matchedQuestions userRequest
  -- Limit to max questions
  let queue := prioritizedQuestions.take maxQuestions
  -- Set first question as current
  match queue with
  | q :: _ => { s with questionQueue := queue, currentQuestion := some q }
  | [] => { s with questionQueue := queue, completed := true }

/-- `QuestionManager.#moveToNextQuestion()`.  The JS
`findIndex === -1` case (no current question) fails the bounds test
below just as it fails `>= 0`. -/
def moveToNextQuestion (s : QuestionState) : QuestionState :=
  let currentIndex := s.questionQueue.findIdx fun q =>
    match s.currentQuestion with
    | some cq => q.id == cq.id
    | none => false
  if currentIndex < s.questionQueue.length - 1 then
    { s with currentQuestion := s.questionQueue.get? (currentIndex + 1) }
  else
    { s with currentQuestion := none, completed := true }

/-- `QuestionManager.submitAnswer(answer)`.
`#processFollowUpQuestions` collects follow-up IDs but is a placeholder
that changes no state, so it does not appear. -/
def submitAnswer (s : QuestionState) (answer : QuestionAnswer) :
    Except String QuestionState :=
  match s.currentQuestion with
  | none => Except.error "No current question to answer"
  | some currentQuestion =>
    -- Validate the answer
    if answer.questionId ≠ currentQuestion.id then
      Except.error ("Answer question ID " ++ answer.questionId ++
        " does not match current question " ++ currentQuestion.id)
    else
      -- Store the answer
      let stored := mapSet s.answeredQuestions answer.questionId answer
      let s₁ := { s with answeredQuestions := stored }
      -- Move to next question
      Except.ok (moveToNextQuestion s₁)

/-- `QuestionManager.skipCurrentQuestion()`.  The JS
`!currentQuestion.allowSkip` is true for both `false` and `undefined`. -/
def skipCurrentQuestion (now : Int) (s : QuestionState) :
    Except String QuestionState :=
  match s.currentQuestion with
  | none => Except.error "No current question to skip"
  | some currentQuestion =>
    if !(currentQuestion.allowSkip.getD false) then
      Except.error "This question cannot be skipped"
    else
      -- Record that the question was skipped
      let skipRecord : QuestionAnswer :=
        { questionId := currentQuestion.id
          selectedOptionIds := []
          customText := none
          timestamp := now }
      let stored := mapSet s.answeredQuestions currentQuestion.id skipRecord
      let s₁ := { s with answeredQuestions := stored }
      Except.ok (moveToNextQuestion s₁)

/-- The manager state after a method call that may throw: JavaScript
exception propagation leaves the receiver as it was.  This is the right
reading here because every embedded method performs its validation
checks before its first mutation. -/
def afterTry (s : QuestionState) (r : Except String QuestionState) :
    QuestionState :=
  match r with
  | Except.ok s' => s'
  | Except.error _ => s

/-! ## Priority order of a generated queue (used to state C5) -/

/-- Group rank of the three question types in the generated queue:
confirmation before decision before ambiguity. -/
def questionTypeRank : QuestionType → Nat
  | QuestionType.confirmation => 0
  | QuestionType.decision => 1
  | QuestionType.ambiguity => 2

/-- Position of a question's template in its own catalog. -/
def catalogIndex (q : Question) : Nat :=
  match q.type with
  | QuestionType.ambiguity =>
      (AMBIGUITY_TEMPLATES.map fun t => t.id).indexOf q.id
  | QuestionType.decision =>
      (DECISION_TEMPLATES.map fun t => t.id).indexOf q.id
  | QuestionType.confirmation =>
      (CONFIRMATION_TEMPLATES.map fun t => t.id).indexOf q.id

/-- The spec's priority order on a generated queue: earlier question
groups rank strictly lower; inside a group, strictly more keyword
matches come first and ties keep catalog order. -/
def questionPriorityRel (userRequest : String) (a b : Question) : Prop :=
  questionTypeRank a.type < questionTypeRank b.type ∨
  (a.type = b.type ∧
    (getKeywordCount b.id userRequest < getKeywordCount a.id userRequest ∨
      (getKeywordCount a.id userRequest = getKeywordCount b.id userRequest ∧
        catalogIndex a < catalogIndex b)))

/-! ## Concrete instances used by counterexamples and witnesses -/

/-- The question-manager constructor state. -/
def emptyQuestionState : QuestionState :=
  { questionQueue := []
    currentQuestion := none
    answeredQuestions := []
    completed := false }

/-- A decision question sitting at the front of a queue. -/
def sampleQuestion : Question :=
  { id := "database-choice"
    type := QuestionType.decision
    template := "What type of database would you prefer?"
    options := none
    followupQuestions := none
    allowSkip := some true
    allowMultiple := some false }

/-- A non-skippable confirmation question. -/
def skipBlockedQuestion : Question :=
  { id := "assumptions-confirmation"
    type := QuestionType.confirmation
    template := "Before I start implementing, I want to confirm my understanding:"
    options := none
    followupQuestions := none
    allowSkip := some false
    allowMultiple := none }

/-- A state whose current question is the non-skippable confirmation. -/
def skipBlockedState : QuestionState :=
  { questionQueue := [skipBlockedQuestion]
    currentQuestion := some skipBlockedQuestion
    answeredQuestions := []
    completed := false }

/-- A state whose current question is `sampleQuestion`. -/
def answeringState : QuestionState :=
  { questionQueue := [sampleQuestion]
    currentQuestion := some sampleQuestion
    answeredQuestions := []
    completed := false }

/-- An answer whose `questionId` matches no current question. -/
def mismatchedAnswer : QuestionAnswer :=
  { questionId := "performance-requirements"
    selectedOptionIds := ["response-time"]
    customText := none
    timestamp := 5 }

/-- The queue generated for the end-to-end request of the spec. -/
def optimizeQueue : List Question :=
  (generateQuestions 10 "optimize performance of the database layer" []
    emptyQuestionState).questionQueue

/-! ## Concrete instances used by counterexamples and witnesses -/

/-- An enabled planning state sitting at the terminal `exit` phase. -/
def planningStateAtExit : PlanningState :=
  { createInitialPlanningState with
      enabled := true, currentPhase := PlanningPhase.exit }

/-- A concrete plan record. -/
def samplePlanFile : PlanFile :=
  { id := "b7c9d1e3f5a7"
    slug := "b7c9d1e3f5a7"
    createdAt := 1700000000000
    updatedAt := 1700000000000
    phase := PlanningPhase.design
    userRequest := "add a logging module"
    clarifications := [("scope", "\"current task\"")]
    implementationPlan := "write the module"
    filesToModify := ["src/log.ts"]
    verificationSteps := ["run the tests"]
  }

/-- A planning state holding `samplePlanFile` as the active plan. -/
def planningStateWithPlan : PlanningState :=
  { createInitialPlanningState with planFile := some samplePlanFile }

/-- An update object that only sets `implementationPlan`. -/
def sampleUpdates : PlanFileUpdates :=
  { updatedAt := none
    phase := none
    userRequest := none
    clarifications := none
    implementationPlan := some "new plan"
    filesToModify := none
    verificationSteps := none }

/-- The empty file store. -/
def emptyStore : FileStore := fun _ => none

/-- A store whose only entry is a corrupt JSON sidecar for slug `abc`
under project `/work/proj`. -/
def corruptStore : FileStore :=
  writeFileStore emptyStore (getPlanJsonPath "/work/proj" "abc")
    (FileContent.text "\x7b not valid json")

/-! ## Claim C1 -/

/-- C1, counterexample: from the terminal phase `exit` with planning
enabled, `transitionToNextPhase()` does return `false`, but it mutates
`phaseProgress` (the `exit` entry is marked completed before the
next-phase lookup fails), refuting the no-mutation part of the claim. -/
theorem C1_counterexample :
    (transitionToNextPhase 0 planningStateAtExit).1 = false ∧
    (transitionToNextPhase 0 planningStateAtExit).2.phaseProgress ≠
      planningStateAtExit.phaseProgress := by
  decide

/-- C1, amended: when planning is enabled and the current phase is the
terminal phase `exit`, `transitionToNextPhase()` returns `false` and
leaves `currentPhase`, `planFile` and `enabled` unchanged, but it does
mutate `phaseProgress`: the `exit` progress entry is marked
`completed = true` before the next-phase lookup fails. -/
theorem C1_amended (now : Int) (s : PlanningState)
    (h₁ : s.enabled = true) (h₂ : s.currentPhase = PlanningPhase.exit) :
    (transitionToNextPhase now s).1 = false ∧
    (transitionToNextPhase now s).2.currentPhase = s.currentPhase ∧
    (transitionToNextPhase now s).2.planFile = s.planFile ∧
    (transitionToNextPhase now s).2.enabled = s.enabled ∧
    (transitionToNextPhase now s).2.phaseProgress =
      s.phaseProgress.set PlanningPhase.exit
        { s.phaseProgress.get PlanningPhase.exit with completed := true } := by
  have hnext : getNextPhase PlanningPhase.exit = none := by decide
  simp [transitionToNextPhase, h₁, h₂, hnext]

/-- C1 witness: the amended claim at the concrete enabled `exit` state. -/
theorem C1_witness :
    planningStateAtExit.enabled = true ∧
    (transitionToNextPhase 7 planningStateAtExit).1 = false ∧
    (transitionToNextPhase 7 planningStateAtExit).2.phaseProgress =
      planningStateAtExit.phaseProgress.set PlanningPhase.exit
        { planningStateAtExit.phaseProgress.get PlanningPhase.exit with
            completed := true } := by
  have h := C1_amended 7 planningStateAtExit rfl rfl
  exact ⟨rfl, h.1, h.2.2.2.2⟩

/-! ## Claim C2 -/

/-- C2: with planning disabled every tool is allowed while
`getAllowedTools` returns `[]` (the documented asymmetry); with planning
enabled a tool is allowed exactly when it is in the fixed allow-list of
the current phase; `write_plan_file` appears only in the `design` list;
every non-`exit` list is non-empty and contains `read_file`; the `exit`
list is empty. -/
theorem C2_tool_gating :
    (∀ (s : PlanningState) (t : String), s.enabled = false →
      PlanningManager.isToolAllowed t s = true ∧
      PlanningManager.getAllowedTools s = []) ∧
    (∀ (s : PlanningState) (t : String), s.enabled = true →
      (PlanningManager.isToolAllowed t s = true ↔
        t ∈ PHASE_ALLOWED_TOOLS s.currentPhase)) ∧
    (∀ p : PlanningPhase,
      ("write_plan_file" ∈ PHASE_ALLOWED_TOOLS p ↔ p = PlanningPhase.design)) ∧
    (∀ p : PlanningPhase, p ≠ PlanningPhase.exit →
      "read_file" ∈ PHASE_ALLOWED_TOOLS p ∧ PHASE_ALLOWED_TOOLS p ≠ []) ∧
    PHASE_ALLOWED_TOOLS PlanningPhase.exit = [] := by
  refine ⟨?_, ?_, ?_, ?_, rfl⟩
  · intro s t h
    simp [PlanningManager.isToolAllowed, PlanningManager.getAllowedTools, h]
  · intro s t h
    simp [PlanningManager.isToolAllowed, h, isToolAllowedInPhase,
      List.contains, List.elem_iff]
  · intro p
    cases p <;> simp [PHASE_ALLOWED_TOOLS]
  · intro p hp
    cases p <;> simp_all [PHASE_ALLOWED_TOOLS]

/-- C2 witness: the gating facts evaluated at concrete states — the
disabled initial state allows an arbitrary tool and reports an empty
allow-list, and in the enabled `exit` state no tool is allowed. -/
theorem C2_witness :
    PlanningManager.isToolAllowed "write_file" createInitialPlanningState
        = true ∧
    PlanningManager.getAllowedTools createInitialPlanningState = [] ∧
    ¬ PlanningManager.isToolAllowed "read_file" planningStateAtExit = true := by
  refine ⟨(C2_tool_gating.1 createInitialPlanningState "write_file" rfl).1,
    (C2_tool_gating.1 createInitialPlanningState "write_file" rfl).2, ?_⟩
  intro hcontra
  have h := (C2_tool_gating.2.1 planningStateAtExit "read_file" rfl).mp hcontra
  revert h
  decide

/-! ## Claim C3 -/

/-- C3, counterexample: for a slug whose JSON sidecar exists but whose
content fails to parse, `loadPlanFile` returns the `null` not-found
sentinel — the catch-all swallows the parse error, refuting the claim
that a corrupt sidecar is a hard error distinct from absence. -/
theorem C3_counterexample :
    corruptStore (getPlanJsonPath "/work/proj" "abc") ≠ none ∧
    loadPlanFile corruptStore "/work/proj" "abc" = none := by
  constructor
  · intro h
    simp [corruptStore, writeFileStore] at h
  · rfl

/-- C3, amended: `loadPlanFile` returns the `null` sentinel both when
the sidecar is absent and when its content fails to parse; the sentinel
is not reserved for absence (a caller cannot distinguish corrupt from
missing).  A well-formed sidecar is returned with its date fields
revived. -/
theorem C3_amended (fs : FileStore) (cwd slug : String) :
    (fs (getPlanJsonPath cwd slug) = none →
      loadPlanFile fs cwd slug = none) ∧
    (∀ s, fs (getPlanJsonPath cwd slug) = some (FileContent.text s) →
      loadPlanFile fs cwd slug = none) ∧
    (∀ p, fs (getPlanJsonPath cwd slug) = some (FileContent.planJson p) →
      loadPlanFile fs cwd slug = some p) := by
  refine ⟨fun h => ?_, fun s h => ?_, fun p h => ?_⟩ <;>
    simp [loadPlanFile, h]

/-- C3 witness: the amended behaviour at concrete stores — a corrupt
sidecar loads as `none`, an absent one loads as `none`, and a good one
loads back the record. -/
theorem C3_witness :
    loadPlanFile corruptStore "/work/proj" "abc" = none ∧
    loadPlanFile emptyStore "/work/proj" "abc" = none ∧
    loadPlanFile
      (writeFileStore emptyStore (getPlanJsonPath "/work/proj" "abc")
        (FileContent.planJson samplePlanFile)) "/work/proj" "abc"
      = some samplePlanFile := by
  refine ⟨(C3_amended corruptStore "/work/proj" "abc").2.1
      "\x7b not valid json" rfl,
    (C3_amended emptyStore "/work/proj" "abc").1 rfl,
    (C3_amended _ "/work/proj" "abc").2.2 samplePlanFile ?_⟩
  simp [writeFileStore]

/-! ## Claim C4 -/

/-- C4, counterexample: `PlanningManager.createPlanFile` sets `id` to
the fresh `randomUUID()` value, not to the slug.  At a representative
pair of generated values (a 36-character UUID and a 12-character hex
slug — the two shapes the generators produce, which can never
coincide), the returned record has `id ≠ slug`. -/
theorem C4_counterexample :
    (PlanningManager.createPlanFile "a3e1f0b2-4c5d-4e6f-8a9b-0c1d2e3f4a5b"
        "a1b2c3d4e5f6" 0 "add a parser" createInitialPlanningState).1.id ≠
    (PlanningManager.createPlanFile "a3e1f0b2-4c5d-4e6f-8a9b-0c1d2e3f4a5b"
        "a1b2c3d4e5f6" 0 "add a parser" createInitialPlanningState).1.slug := by
  decide

/-- C4, amended: the facade's `PlanManager.createPlan` does return a
record with `id = slug` (both equal the generated slug), but
`PlanningManager.createPlanFile` sets `id` to the freshly generated
UUID and `slug` to the 12-hex slug, so its record has `id ≠ slug`
whenever the two generated strings differ (always, since a UUID has 36
characters and the slug 12). -/
theorem C4_amended :
    (∀ (home cwd slug : String) (now : Int) (req : String) (fs : FileStore)
       (pf : PlanFile) (fs' : FileStore),
      PlanManager.createPlan home cwd slug now req fs =
          Except.ok (pf, fs') →
      pf.id = pf.slug ∧ pf.id = slug) ∧
    (∀ (uuid slug : String) (now : Int) (req : String) (s : PlanningState),
      (PlanningManager.createPlanFile uuid slug now req s).1.id = uuid ∧
      (PlanningManager.createPlanFile uuid slug now req s).1.slug = slug ∧
      (uuid ≠ slug →
        (PlanningManager.createPlanFile uuid slug now req s).1.id ≠
        (PlanningManager.createPlanFile uuid slug now req s).1.slug)) := by
  constructor
  · intro home cwd slug now req fs pf fs' h
    unfold PlanManager.createPlan at h
    split at h
    · exact absurd h (by simp)
    · dsimp only at h
      split at h
      · exact absurd h (by simp)
      · rw [Except.ok.injEq, Prod.mk.injEq] at h
        obtain ⟨hpf, -⟩ := h
        rw [← hpf]
        exact ⟨rfl, rfl⟩
  · intro uuid slug now req s
    exact ⟨rfl, rfl, fun h => h⟩

/-- C4 witness: the facade record at concrete inputs has `id = slug`,
and the planning-manager record at concrete generated values has
`id ≠ slug`. -/
theorem C4_witness :
    (∃ pf fs',
      PlanManager.createPlan "/home/alice" "/work/proj" "b7c9d1e3f5a7" 0
          "add a parser" emptyStore = Except.ok (pf, fs') ∧
      pf.id = pf.slug) ∧
    (PlanningManager.createPlanFile "a3e1f0b2-4c5d-4e6f-8a9b-0c1d2e3f4a5b"
        "a1b2c3d4e5f6" 0 "add a parser" createInitialPlanningState).1.id ≠
    (PlanningManager.createPlanFile "a3e1f0b2-4c5d-4e6f-8a9b-0c1d2e3f4a5b"
        "a1b2c3d4e5f6" 0 "add a parser" createInitialPlanningState).1.slug := by
  constructor
  · refine ⟨_, _, rfl, ?_⟩
    exact (C4_amended.1 "/home/alice" "/work/proj" "b7c9d1e3f5a7" 0
      "add a parser" emptyStore _ _ rfl).1
  · exact (C4_amended.2 "a3e1f0b2-4c5d-4e6f-8a9b-0c1d2e3f4a5b" "a1b2c3d4e5f6"
      0 "add a parser" createInitialPlanningState).2.2 (by decide)

/-! ## Claim C6 -/

/-- C6: from a working directory equal to the home directory or inside
it, any plan save attempt fails with the directory-validity error
raised by `ensurePlanDirectory` before anything is written: the result
is `Except.error`, so no new file store is produced — neither the
markdown nor the JSON file exists afterwards. -/
theorem C6_home_directory_save_fails (home cwd : String) (fs : FileStore)
    (pf : PlanFile) (md : Option String)
    (h : normalizePath cwd = normalizePath home ∨
      strStartsWith (normalizePath cwd) (normalizePath home ++ "/") = true) :
    savePlanFile home fs cwd pf md =
      Except.error
        "Plan files can only be created in project directories, not in home directory" := by
  have hvalid : isValidProjectDirectory home cwd = false := by
    unfold isValidProjectDirectory
    rcases h with h | h
    · simp [h]
    · simp [h]
  simp [savePlanFile, ensurePlanDirectory, hvalid]

/-- C6 witness: saving from `/home/alice` itself and from
`/home/alice/project` (a subdirectory) both fail with the validity
error. -/
theorem C6_witness :
    savePlanFile "/home/alice" emptyStore "/home/alice" samplePlanFile none =
      Except.error
        "Plan files can only be created in project directories, not in home directory" ∧
    savePlanFile "/home/alice" emptyStore "/home/alice/project" samplePlanFile
        none =
      Except.error
        "Plan files can only be created in project directories, not in home directory" := by
  constructor
  · exact C6_home_directory_save_fails "/home/alice" "/home/alice" emptyStore
      samplePlanFile none (Or.inl rfl)
  · exact C6_home_directory_save_fails "/home/alice" "/home/alice/project"
      emptyStore samplePlanFile none (Or.inr (by decide))

/-! ## Claim C7 -/

/-- C7: in a valid project directory, `savePlanFile` followed by
`loadPlanFile` of the same slug returns a record equal to the saved one
(dates revived from their serialized form; `savePlanFile` itself never
advances `updatedAt`, which satisfies the claim's "except possibly
`updatedAt` advancing"). -/
theorem C7_round_trip (home : String) (fs : FileStore) (cwd : String)
    (pf : PlanFile) (md : Option String)
    (h : isValidProjectDirectory home cwd = true) :
    ∃ fs', savePlanFile home fs cwd pf md = Except.ok fs' ∧
      loadPlanFile fs' cwd pf.slug = some pf := by
  have hok : savePlanFile home fs cwd pf md = Except.ok
      (writeFileStore
        (writeFileStore fs (getPlanMdPath cwd pf.slug)
          (FileContent.text (strOrElse (md.getD "")
            (generatePlanMarkdown pf))))
        (getPlanJsonPath cwd pf.slug) (FileContent.planJson pf)) := by
    simp [savePlanFile, ensurePlanDirectory, h]
  refine ⟨_, hok, ?_⟩
  simp [loadPlanFile, writeFileStore]

/-- C7 witness: the round trip at a concrete record and store. -/
theorem C7_witness :
    isValidProjectDirectory "/home/alice" "/work/proj" = true ∧
    ∃ fs',
      savePlanFile "/home/alice" emptyStore "/work/proj" samplePlanFile none =
        Except.ok fs' ∧
      loadPlanFile fs' "/work/proj" samplePlanFile.slug =
        some samplePlanFile :=
  ⟨by decide,
   C7_round_trip "/home/alice" emptyStore "/work/proj" samplePlanFile none
     (by decide)⟩

/-! ## Claim C8 -/

/-- C8: `submitAnswer` fails when there is no current question, and
fails when the answer's `questionId` differs from the current
question's id; in both cases the manager state is unchanged (the
validation throws precede every mutation), so `answeredQuestions`
gains no entry and the queue and current question are untouched. -/
theorem C8_submit_validation :
    (∀ (s : QuestionState) (a : QuestionAnswer),
      s.currentQuestion = none →
      submitAnswer s a = Except.error "No current question to answer" ∧
      afterTry s (submitAnswer s a) = s) ∧
    (∀ (s : QuestionState) (a : QuestionAnswer) (q : Question),
      s.currentQuestion = some q → a.questionId ≠ q.id →
      submitAnswer s a =
        Except.error ("Answer question ID " ++ a.questionId ++
          " does not match current question " ++ q.id) ∧
      afterTry s (submitAnswer s a) = s) := by
  constructor
  · intro s a h
    simp [submitAnswer, h, afterTry]
  · intro s a q h hne
    simp [submitAnswer, h, hne, afterTry]

/-- C8 witness: submitting with no current question fails, and
submitting a mismatched answer against `sampleQuestion` fails leaving
the state untouched. -/
theorem C8_witness :
    submitAnswer emptyQuestionState mismatchedAnswer =
      Except.error "No current question to answer" ∧
    afterTry answeringState (submitAnswer answeringState mismatchedAnswer) =
      answeringState := by
  constructor
  · exact (C8_submit_validation.1 emptyQuestionState mismatchedAnswer rfl).1
  · exact (C8_submit_validation.2 answeringState mismatchedAnswer
      sampleQuestion rfl (by decide)).2

/-! ## Claim C9 -/

/-- C9: `updatePlanFile` with no active plan changes nothing; with an
active plan it keeps `id`, `slug` and `createdAt`, stamps `updatedAt`
with the current time, replaces exactly the fields present in the
updates, and touches nothing else in the planning state. -/
theorem C9_update_frame :
    (∀ (now : Int) (u : PlanFileUpdates) (s : PlanningState),
      s.planFile = none → updatePlanFile now u s = s) ∧
    (∀ (now : Int) (u : PlanFileUpdates) (s : PlanningState) (pf : PlanFile),
      s.planFile = some pf →
      (updatePlanFile now u s).currentPhase = s.currentPhase ∧
      (updatePlanFile now u s).enabled = s.enabled ∧
      (updatePlanFile now u s).phaseProgress = s.phaseProgress ∧
      (updatePlanFile now u s).planFile.map PlanFile.id = some pf.id ∧
      (updatePlanFile now u s).planFile.map PlanFile.slug = some pf.slug ∧
      (updatePlanFile now u s).planFile.map PlanFile.createdAt =
        some pf.createdAt ∧
      (updatePlanFile now u s).planFile.map PlanFile.updatedAt = some now ∧
      (u.phase = none →
        (updatePlanFile now u s).planFile.map PlanFile.phase =
          some pf.phase) ∧
      (∀ v, u.phase = some v →
        (updatePlanFile now u s).planFile.map PlanFile.phase = some v) ∧
      (u.userRequest = none →
        (updatePlanFile now u s).planFile.map PlanFile.userRequest =
          some pf.userRequest) ∧
      (∀ v, u.userRequest = some v →
        (updatePlanFile now u s).planFile.map PlanFile.userRequest =
          some v) ∧
      (u.clarifications = none →
        (updatePlanFile now u s).planFile.map PlanFile.clarifications =
          some pf.clarifications) ∧
      (∀ v, u.clarifications = some v →
        (updatePlanFile now u s).planFile.map PlanFile.clarifications =
          some v) ∧
      (u.implementationPlan = none →
        (updatePlanFile now u s).planFile.map PlanFile.implementationPlan =
          some pf.implementationPlan) ∧
      (∀ v, u.implementationPlan = some v →
        (updatePlanFile now u s).planFile.map PlanFile.implementationPlan =
          some v) ∧
      (u.filesToModify = none →
        (updatePlanFile now u s).planFile.map PlanFile.filesToModify =
          some pf.filesToModify) ∧
      (∀ v, u.filesToModify = some v →
        (updatePlanFile now u s).planFile.map PlanFile.filesToModify =
          some v) ∧
      (u.verificationSteps = none →
        (updatePlanFile now u s).planFile.map PlanFile.verificationSteps =
          some pf.verificationSteps) ∧
      (∀ v, u.verificationSteps = some v →
        (updatePlanFile now u s).planFile.map PlanFile.verificationSteps =
          some v)) := by
  constructor
  · intro now u s h
    simp [updatePlanFile, h]
  · intro now u s pf h
    refine ⟨?_, ?_, ?_, ?_, ?_, ?_, ?_, ?_, ?_, ?_, ?_, ?_, ?_, ?_, ?_, ?_,
      ?_, ?_, ?_⟩ <;>
      (intros; simp_all [updatePlanFile])

/-- C9 witness: applying an update that only sets
`implementationPlan` to the state holding `samplePlanFile` keeps the
identity fields, stamps the clock, and replaces just that field. -/
theorem C9_witness :
    (updatePlanFile 42 sampleUpdates planningStateWithPlan).planFile.map
        PlanFile.id = some samplePlanFile.id ∧
    (updatePlanFile 42 sampleUpdates planningStateWithPlan).planFile.map
        PlanFile.createdAt = some samplePlanFile.createdAt ∧
    (updatePlanFile 42 sampleUpdates planningStateWithPlan).planFile.map
        PlanFile.updatedAt = some 42 ∧
    (updatePlanFile 42 sampleUpdates planningStateWithPlan).planFile.map
        PlanFile.implementationPlan = some "new plan" ∧
    (updatePlanFile 42 sampleUpdates planningStateWithPlan).planFile.map
        PlanFile.userRequest = some samplePlanFile.userRequest := by
  obtain ⟨-, -, -, h1, -, h3, h4, -, -, h5, -, -, -, -, h6, -, -, -, -⟩ :=
    C9_update_frame.2 42 sampleUpdates planningStateWithPlan
      samplePlanFile rfl
  exact ⟨h1, h3, h4, h6 "new plan" rfl, h5 rfl⟩

/-! ## Structure of a generated queue (shared by C5 and C10) -/

/-- Every question from the ambiguity block is an ambiguity question
with `allowSkip = true`. -/
theorem mem_ambMatched {req : String} {q : Question}
    (h : q ∈ ambMatchedQuestions req) :
    q.type = QuestionType.ambiguity ∧ q.allowSkip = some true := by
  simp only [ambMatchedQuestions, List.mem_map] at h
  obtain ⟨t, -, rfl⟩ := h
  exact ⟨rfl, rfl⟩

/-- Every question from the decision block is a decision question with
`allowSkip = true`. -/
theorem mem_decMatched {req : String} {q : Question}
    (h : q ∈ decMatchedQuestions req) :
    q.type = QuestionType.decision ∧ q.allowSkip = some true := by
  simp only [decMatchedQuestions, List.mem_map] at h
  obtain ⟨t, -, rfl⟩ := h
  exact ⟨rfl, rfl⟩

/-- Every question from the confirmation block is a confirmation
question with `allowSkip = false`. -/
theorem mem_confMatched {req : String} {q : Question}
    (h : q ∈ confMatchedQuestions req) :
    q.type = QuestionType.confirmation ∧ q.allowSkip = some false := by
  simp only [confMatchedQuestions] at h
  split at h
  · split at h
    · rw [List.mem_singleton] at h
      subst h
      exact ⟨rfl, rfl⟩
    · simp at h
  · simp at h

/-- The confirmation block holds at most one question. -/
theorem confMatched_shape (req : String) :
    confMatchedQuestions req = [] ∨
      ∃ q, confMatchedQuestions req = [q] := by
  rcases h : confMatchedQuestions req with - | ⟨q, l⟩
  · exact Or.inl rfl
  · refine Or.inr ⟨q, ?_⟩
    simp only [confMatchedQuestions] at h
    split at h
    · split at h
      · injection h with h1 h2
        rw [← h2]
      · cases h
    · cases h

/-- A prioritized list only reorders: its members come from the input. -/
theorem mem_prioritize {qs : List Question} {req : String} {q : Question}
    (h : q ∈ prioritizeQuestions qs req) : q ∈ qs := by
  simp only [prioritizeQuestions] at h
  rcases List.mem_append.mp h with h | h
  · rcases List.mem_append.mp h with h | h
    · exact List.mem_of_mem_filter h
    · exact List.mem_of_mem_filter ((List.mem_insertionSort _).mp h)
  · exact List.mem_of_mem_filter ((List.mem_insertionSort _).mp h)

/-- The queue installed by `generateQuestions` is the prioritized match
list truncated to `maxQuestions`, whatever the starting state. -/
theorem generateQuestions_queue (maxQ : Nat) (req : String)
    (files : List String) (s : QuestionState) :
    (generateQuestions maxQ req files s).questionQueue =
      (prioritizeQuestions (findMatchingQuestions req) req).take maxQ := by
  simp only [generateQuestions]
  split
  · next q l heq => simp only [heq]
  · next heq => simp only [heq]

/-- When the installed queue is non-empty, `generateQuestions` sets the
current question to its head. -/
theorem generateQuestions_current (maxQ : Nat) (req : String)
    (files : List String) (s : QuestionState) :
    (generateQuestions maxQ req files s).questionQueue = [] ∨
    (generateQuestions maxQ req files s).currentQuestion =
      (generateQuestions maxQ req files s).questionQueue.head? := by
  simp only [generateQuestions]
  split
  · next q l heq => right; simp only [heq]; rfl
  · next heq => left; simp only [heq]

/-! ## Claim C10 -/

/-- C10: every question that `generateQuestions` puts in the queue has
`allowSkip = true` when it is an ambiguity or decision question and
`allowSkip = false` when it is a confirmation question; and whenever the
current question forbids skipping — as the assumptions-confirmation
question always does — `skipCurrentQuestion` fails and records
nothing. -/
theorem C10_allowSkip_policy :
    (∀ (maxQ : Nat) (req : String) (files : List String)
       (s₀ : QuestionState) (q : Question),
      q ∈ (generateQuestions maxQ req files s₀).questionQueue →
      ((q.type = QuestionType.ambiguity ∨ q.type = QuestionType.decision) →
        q.allowSkip = some true) ∧
      (q.type = QuestionType.confirmation → q.allowSkip = some false)) ∧
    (∀ (now : Int) (s : QuestionState) (q : Question),
      s.currentQuestion = some q → q.allowSkip = some false →
      skipCurrentQuestion now s =
        Except.error "This question cannot be skipped" ∧
      afterTry s (skipCurrentQuestion now s) = s) := by
  constructor
  · intro maxQ req files s₀ q hq
    rw [generateQuestions_queue] at hq
    have hq' : q ∈ findMatchingQuestions req :=
      mem_prioritize (List.take_subset _ _ hq)
    rcases List.mem_append.mp hq' with h | h
    · rcases List.mem_append.mp h with h | h
      · obtain ⟨ht, hs⟩ := mem_ambMatched h
        exact ⟨fun _ => hs, fun hc => by rw [ht] at hc; cases hc⟩
      · obtain ⟨ht, hs⟩ := mem_decMatched h
        exact ⟨fun _ => hs, fun hc => by rw [ht] at hc; cases hc⟩
    · obtain ⟨ht, hs⟩ := mem_confMatched h
      refine ⟨fun had => ?_, fun _ => hs⟩
      rcases had with hc | hc <;> (rw [ht] at hc; cases hc)
  · intro now s q h hskip
    simp [skipCurrentQuestion, h, hskip, afterTry]

/-- C10 witness: the head of the queue generated for a request with the
`create` keyword (the assumptions-confirmation question) is marked
non-skippable, and skipping the non-skippable current question of
`skipBlockedState` fails without touching the state. -/
theorem C10_witness :
    (Option.all (fun q => q.allowSkip == some false)
      (generateQuestions 10 "create a parser" []
        emptyQuestionState).currentQuestion) = true ∧
    skipCurrentQuestion 3 skipBlockedState =
      Except.error "This question cannot be skipped" ∧
    afterTry skipBlockedState (skipCurrentQuestion 3 skipBlockedState) =
      skipBlockedState := by
  refine ⟨?_, ?_, ?_⟩
  · have hlen : (generateQuestions 10 "create a parser" []
        emptyQuestionState).questionQueue.length = 2 := rfl
    have htype : ((generateQuestions 10 "create a parser" []
        emptyQuestionState).questionQueue.map Question.type).head? =
          some QuestionType.confirmation := rfl
    have hcur : (generateQuestions 10 "create a parser" []
        emptyQuestionState).currentQuestion =
        (generateQuestions 10 "create a parser" []
          emptyQuestionState).questionQueue.head? := by
      rcases generateQuestions_current 10 "create a parser" []
          emptyQuestionState with hnil | hcur
      · rw [hnil] at hlen
        cases hlen
      · exact hcur
    rcases hq : (generateQuestions 10 "create a parser" []
        emptyQuestionState).questionQueue with - | ⟨q, l⟩
    · rw [hq] at hlen
      cases hlen
    · have hmem : q ∈ (generateQuestions 10 "create a parser" []
          emptyQuestionState).questionQueue := by
        rw [hq]
        exact List.mem_cons_self _ _
      have hqt : q.type = QuestionType.confirmation := by
        rw [hq] at htype
        simpa using htype
      have := (C10_allowSkip_policy.1 10 "create a parser" []
        emptyQuestionState q hmem).2 hqt
      rw [hcur, hq]
      simp [this]
  · exact (C10_allowSkip_policy.2 3 skipBlockedState skipBlockedQuestion
      rfl rfl).1
  · exact (C10_allowSkip_policy.2 3 skipBlockedState skipBlockedQuestion
      rfl rfl).2

/-! ## Stability of the priority sort (for C5) -/

/-- Inserting `x` into a list that is sorted descending by keyword
count (ties in original order `C`) keeps that shape, provided `x`
originally preceded every element of the list. -/
theorem pairwise_orderedInsert_desc (req : String)
    (C : Question → Question → Prop) (x : Question) :
    ∀ l : List Question,
    List.Pairwise (fun a b =>
      getKeywordCount b.id req < getKeywordCount a.id req ∨
      (getKeywordCount a.id req = getKeywordCount b.id req ∧ C a b)) l →
    (∀ y ∈ l, C x y) →
    List.Pairwise (fun a b =>
      getKeywordCount b.id req < getKeywordCount a.id req ∨
      (getKeywordCount a.id req = getKeywordCount b.id req ∧ C a b))
      (List.orderedInsert (countDescCmp req) x l)
  | [] => by
    intro _ _
    simp [List.orderedInsert]
  | y :: ys => by
    intro hl hx
    simp only [List.orderedInsert]
    by_cases hxy : countDescCmp req x y
    · rw [if_pos hxy]
      have hxy' : getKeywordCount y.id req ≤ getKeywordCount x.id req := hxy
      refine List.Pairwise.cons ?_ hl
      intro z hz
      rcases List.mem_cons.mp hz with rfl | hz
      · rcases Nat.lt_or_ge (getKeywordCount z.id req)
            (getKeywordCount x.id req) with hlt | hge
        · exact Or.inl hlt
        · exact Or.inr ⟨Nat.le_antisymm hge hxy',
            hx z (List.mem_cons_self _ _)⟩
      · have hyz := (List.pairwise_cons.mp hl).1 z hz
        rcases hyz with hlt | ⟨heq, -⟩
        · exact Or.inl (Nat.lt_of_lt_of_le hlt hxy')
        · have hzx : getKeywordCount z.id req ≤ getKeywordCount x.id req :=
            heq ▸ hxy'
          rcases Nat.lt_or_ge (getKeywordCount z.id req)
              (getKeywordCount x.id req) with h1 | h2
          · exact Or.inl h1
          · exact Or.inr ⟨Nat.le_antisymm h2 hzx,
              hx z (List.mem_cons_of_mem _ hz)⟩
    · rw [if_neg hxy]
      have hyx : getKeywordCount x.id req < getKeywordCount y.id req :=
        Nat.lt_of_not_le hxy
      refine List.Pairwise.cons ?_
        (pairwise_orderedInsert_desc req C x ys
          (List.pairwise_cons.mp hl).2
          (fun y' hy' => hx y' (List.mem_cons_of_mem _ hy')))
      intro w hw
      rcases (List.mem_orderedInsert _).mp hw with rfl | hw
      · exact Or.inl hyx
      · exact (List.pairwise_cons.mp hl).1 w hw

/-- The stable descending insertion sort of a list in original order
`C` is sorted descending by keyword count with ties still in `C`
order: exactly ES2019's stable `sort((a, b) => bCount - aCount)`. -/
theorem pairwise_insertionSort_desc (req : String)
    (C : Question → Question → Prop) :
    ∀ l : List Question, List.Pairwise C l →
    List.Pairwise (fun a b =>
      getKeywordCount b.id req < getKeywordCount a.id req ∨
      (getKeywordCount a.id req = getKeywordCount b.id req ∧ C a b))
      (List.insertionSort (countDescCmp req) l)
  | [] => fun _ => by simp [List.insertionSort]
  | x :: xs => fun hl => by
    simp only [List.insertionSort]
    exact pairwise_orderedInsert_desc req C x _
      (pairwise_insertionSort_desc req C xs (List.pairwise_cons.mp hl).2)
      (fun y hy => (List.pairwise_cons.mp hl).1 y
        ((List.mem_insertionSort _).mp hy))

/-- The decision catalog lists its templates in strictly increasing
id-index order. -/
theorem decTemplates_pairwise :
    List.Pairwise (fun t₁ t₂ : DecisionTemplate =>
      (DECISION_TEMPLATES.map fun t => t.id).indexOf t₁.id <
      (DECISION_TEMPLATES.map fun t => t.id).indexOf t₂.id)
      DECISION_TEMPLATES := by
  decide

/-- The ambiguity catalog lists its templates in strictly increasing
id-index order. -/
theorem ambTemplates_pairwise :
    List.Pairwise (fun t₁ t₂ : AmbiguityTemplate =>
      (AMBIGUITY_TEMPLATES.map fun t => t.id).indexOf t₁.id <
      (AMBIGUITY_TEMPLATES.map fun t => t.id).indexOf t₂.id)
      AMBIGUITY_TEMPLATES := by
  decide

/-- The matched decision questions are in catalog order. -/
theorem decMatched_pairwise_cat (req : String) :
    List.Pairwise (fun a b : Question => catalogIndex a < catalogIndex b)
      (decMatchedQuestions req) := by
  simp only [decMatchedQuestions]
  exact List.pairwise_map.mpr (List.Pairwise.filter _ decTemplates_pairwise)

/-- The matched ambiguity questions are in catalog order. -/
theorem ambMatched_pairwise_cat (req : String) :
    List.Pairwise (fun a b : Question => catalogIndex a < catalogIndex b)
      (ambMatchedQuestions req) := by
  simp only [ambMatchedQuestions]
  exact List.pairwise_map.mpr (List.Pairwise.filter _ ambTemplates_pairwise)

/-- `#prioritizeQuestions` applied to the match list splits it back
into its three blocks: the confirmation block first, then the sorted
decision block, then the sorted ambiguity block. -/
theorem prioritize_findMatching (req : String) :
    prioritizeQuestions (findMatchingQuestions req) req =
      confMatchedQuestions req ++
      (decMatchedQuestions req).insertionSort (countDescCmp req) ++
      (ambMatchedQuestions req).insertionSort (countDescCmp req) := by
  have eAc : (ambMatchedQuestions req).filter
      (fun q => q.type == QuestionType.confirmation) = [] :=
    List.filter_eq_nil_iff.mpr fun q hq => by
      simp only [(mem_ambMatched hq).1]
      decide
  have eAd : (ambMatchedQuestions req).filter
      (fun q => q.type == QuestionType.decision) = [] :=
    List.filter_eq_nil_iff.mpr fun q hq => by
      simp only [(mem_ambMatched hq).1]
      decide
  have eAa : (ambMatchedQuestions req).filter
      (fun q => q.type == QuestionType.ambiguity) = ambMatchedQuestions req :=
    List.filter_eq_self.mpr fun q hq => by
      simp only [(mem_ambMatched hq).1]
      decide
  have eDc : (decMatchedQuestions req).filter
      (fun q => q.type == QuestionType.confirmation) = [] :=
    List.filter_eq_nil_iff.mpr fun q hq => by
      simp only [(mem_decMatched hq).1]
      decide
  have eDd : (decMatchedQuestions req).filter
      (fun q => q.type == QuestionType.decision) = decMatchedQuestions req :=
    List.filter_eq_self.mpr fun q hq => by
      simp only [(mem_decMatched hq).1]
      decide
  have eDa : (decMatchedQuestions req).filter
      (fun q => q.type == QuestionType.ambiguity) = [] :=
    List.filter_eq_nil_iff.mpr fun q hq => by
      simp only [(mem_decMatched hq).1]
      decide
  have eCc : (confMatchedQuestions req).filter
      (fun q => q.type == QuestionType.confirmation) =
        confMatchedQuestions req :=
    List.filter_eq_self.mpr fun q hq => by
      simp only [(mem_confMatched hq).1]
      decide
  have eCd : (confMatchedQuestions req).filter
      (fun q => q.type == QuestionType.decision) = [] :=
    List.filter_eq_nil_iff.mpr fun q hq => by
      simp only [(mem_confMatched hq).1]
      decide
  have eCa : (confMatchedQuestions req).filter
      (fun q => q.type == QuestionType.ambiguity) = [] :=
    List.filter_eq_nil_iff.mpr fun q hq => by
      simp only [(mem_confMatched hq).1]
      decide
  simp only [prioritizeQuestions, findMatchingQuestions, List.filter_append,
    eAc, eAd, eAa, eDc, eDd, eDa, eCc, eCd, eCa, List.nil_append,
    List.append_nil]

/-- Every queue `generateQuestions` installs is pairwise ordered by the
spec's priority relation. -/
theorem queue_pairwise (maxQ : Nat) (req : String) (files : List String)
    (s₀ : QuestionState) :
    List.Pairwise (questionPriorityRel req)
      (generateQuestions maxQ req files s₀).questionQueue := by
  rw [generateQuestions_queue]
  refine List.Pairwise.sublist (List.take_sublist _ _) ?_
  rw [prioritize_findMatching, List.append_assoc]
  refine List.pairwise_append.mpr ⟨?_, List.pairwise_append.mpr
    ⟨?_, ?_, ?_⟩, ?_⟩
  · rcases confMatched_shape req with h | ⟨q, h⟩ <;> rw [h]
    · exact List.Pairwise.nil
    · exact List.pairwise_singleton _ _
  · refine (pairwise_insertionSort_desc req
        (fun a b => catalogIndex a < catalogIndex b)
        (decMatchedQuestions req)
        (decMatched_pairwise_cat req)).imp_of_mem ?_
    intro a b ha hb hr
    have hat := (mem_decMatched ((List.mem_insertionSort _).mp ha)).1
    have hbt := (mem_decMatched ((List.mem_insertionSort _).mp hb)).1
    exact Or.inr ⟨hat.trans hbt.symm, hr⟩
  · refine (pairwise_insertionSort_desc req
        (fun a b => catalogIndex a < catalogIndex b)
        (ambMatchedQuestions req)
        (ambMatched_pairwise_cat req)).imp_of_mem ?_
    intro a b ha hb hr
    have hat := (mem_ambMatched ((List.mem_insertionSort _).mp ha)).1
    have hbt := (mem_ambMatched ((List.mem_insertionSort _).mp hb)).1
    exact Or.inr ⟨hat.trans hbt.symm, hr⟩
  · intro a ha b hb
    have hat := (mem_decMatched ((List.mem_insertionSort _).mp ha)).1
    have hbt := (mem_ambMatched ((List.mem_insertionSort _).mp hb)).1
    refine Or.inl ?_
    rw [hat, hbt]
    decide
  · intro a ha b hb
    have hat := (mem_confMatched ha).1
    rcases List.mem_append.mp hb with hb | hb
    · have hbt := (mem_decMatched ((List.mem_insertionSort _).mp hb)).1
      refine Or.inl ?_
      rw [hat, hbt]
      decide
    · have hbt := (mem_ambMatched ((List.mem_insertionSort _).mp hb)).1
      refine Or.inl ?_
      rw [hat, hbt]
      decide

/-! ## Claim C5 -/

/-- C5: every generated queue is ordered by the priority relation —
all confirmation questions first, then decision questions, then
ambiguity questions, each of the latter two groups sorted descending by
matched-keyword count with ties in catalog order — and truncated to the
configured maximum; for the request
`"optimize performance of the database layer"` the queue is exactly the
`database-choice` decision question followed by the
`performance-requirements` ambiguity question, with no confirmation
question. -/
theorem C5_priority_order :
    (∀ (maxQ : Nat) (req : String) (files : List String)
       (s₀ : QuestionState),
      List.Pairwise (questionPriorityRel req)
        (generateQuestions maxQ req files s₀).questionQueue ∧
      (generateQuestions maxQ req files s₀).questionQueue.length ≤ maxQ) ∧
    optimizeQueue.map Question.id =
      ["database-choice", "performance-requirements"] ∧
    optimizeQueue.map Question.type =
      [QuestionType.decision, QuestionType.ambiguity] := by
  refine ⟨fun maxQ req files s₀ =>
    ⟨queue_pairwise maxQ req files s₀, ?_⟩, rfl, rfl⟩
  rw [generateQuestions_queue]
  exact List.length_take_le _ _
